import Mathlib

/-!
A shallow embedding of the violation scanner of `flake8_strict.py` (the
flake8-strict checker): the tree model of `lib2to3.pytree`, the two error
codes S100/S101, and the scanning functions `_process_tree`,
`_process_parameters`, `_process_trailer`, `_process_atom`,
`_is_multi_line`, `_error` and `_get_column`, translated statement by
statement from the source.  Python exceptions (tuple-unpacking ValueError,
attribute access on the wrong node kind) are modelled with `Except`.
-/

namespace FlakeStrict

/-- Token-type number of `,` in `lib2to3.pgen2.token`. -/
def COMMA : Nat := 12

/-- Token-type number of `*` in `lib2to3.pgen2.token`. -/
def STAR : Nat := 16

/-- Token-type number of `**` in `lib2to3.pgen2.token`. -/
def DOUBLESTAR : Nat := 36

/-- Grammar-symbol number of the `parameters` production.  lib2to3 assigns
every grammar production a fixed number of at least 256; the concrete value
is irrelevant as long as the four numbers the checker asks about are
distinct and at least 256. -/
def parameters_sym : Nat := 262

/-- Grammar-symbol number of the `trailer` production. -/
def trailer_sym : Nat := 322

/-- Grammar-symbol number of the `atom` production. -/
def atom_sym : Nat := 326

/-- Grammar-symbol number of the `comp_for` production. -/
def comp_for_sym : Nat := 333

/-- `pytree.type_repr`: the production name for a known symbol number,
otherwise the number itself (Python returns the `int`; only equality with
the tag strings matters, and a numeral string never equals a tag). -/
def type_repr (type_num : Nat) : String :=
  if type_num = parameters_sym then "parameters"
  else if type_num = trailer_sym then "trailer"
  else if type_num = atom_sym then "atom"
  else if type_num = comp_for_sym then "comp_for"
  else toString type_num

/-- A `lib2to3.pytree` tree: a `Leaf` carries a token type, its text, a
1-based line and a 0-based column; a `Node` carries a grammar-symbol type
and the ordered list of its children. -/
inductive PyNode : Type where
  | leaf (type : Nat) (value : String) (lineno : Nat) (column : Nat)
  | node (type : Nat) (children : List PyNode)

/-- The `.type` attribute, defined on both `Leaf` and `Node`. -/
def PyNode.type : PyNode → Nat
  | .leaf t _ _ _ => t
  | .node t _ => t

/-- The `.children` attribute: a `Leaf` has the empty list. -/
def PyNode.children : PyNode → List PyNode
  | .leaf _ _ _ _ => []
  | .node _ cs => cs

/-- The `.value` attribute: only a `Leaf` has it; `none` models the
`AttributeError` that accessing it on a `Node` raises. -/
def PyNode.value : PyNode → Option String
  | .leaf _ v _ _ => some v
  | .node _ _ => none

/-- The `.lineno` attribute: only a `Leaf` has it; `none` models the
`AttributeError` that accessing it on a `Node` raises. -/
def PyNode.lineno : PyNode → Option Nat
  | .leaf _ _ l _ => some l
  | .node _ _ => none

/-- `Base.get_lineno`: walk first children down to a leaf and return its
line; Python returns `None` when a childless composite is reached. -/
def PyNode.get_lineno : PyNode → Option Nat
  | .leaf _ _ l _ => some l
  | .node _ [] => none
  | .node _ (c :: _) => PyNode.get_lineno c

/-- `_get_column`: walk first children down to a leaf and return its
column; Python returns `None` when a childless composite is reached. -/
def _get_column : PyNode → Option Nat
  | .leaf _ _ _ c => some c
  | .node _ [] => none
  | .node _ (c :: _) => _get_column c

/-- The two error codes of the checker. -/
inductive ErrorCode : Type where
  | S100
  | S101
  deriving DecidableEq

/-- The `(line, column, error_code)` triple yielded by the checker; line
and column are `Option` because `get_lineno` and `_get_column` return
`None` on a childless composite. -/
structure Violation : Type where
  line : Option Nat
  column : Option Nat
  code : ErrorCode
  deriving DecidableEq

instance {ε α : Type} [DecidableEq ε] [DecidableEq α] : DecidableEq (Except ε α) := fun x y =>
  match x, y with
  | Except.ok a, Except.ok b =>
    if h : a = b then Decidable.isTrue (by rw [h])
    else Decidable.isFalse (fun hh => h (by injection hh))
  | Except.ok _, Except.error _ => Decidable.isFalse (fun hh => Except.noConfusion hh)
  | Except.error _, Except.ok _ => Decidable.isFalse (fun hh => Except.noConfusion hh)
  | Except.error e, Except.error f =>
    if h : e = f then Decidable.isTrue (by rw [h])
    else Decidable.isFalse (fun hh => h (by injection hh))

/-- `_error(element, error_code)`. -/
def _error (element : PyNode) (error_code : ErrorCode) : Violation :=
  ⟨element.get_lineno, _get_column element, error_code⟩

/-- `_is_multi_line`: more than one distinct `get_lineno` value among the
direct children (Python builds a `set`, which may contain `None`). -/
def _is_multi_line (tree : PyNode) : Bool :=
  (tree.children.map PyNode.get_lineno).dedup.length > 1

/-- `_process_parameters`, translated statement by statement.  The function
is a generator in Python; the yielded violations are collected eagerly into
a list.  `Except.error` models the two exceptions the body can raise: the
`ValueError` of unpacking a child list whose length is not 3, and the
`AttributeError` of reading `.lineno` off a composite opening bracket. -/
def _process_parameters (parameters : PyNode) : Except String (List Violation) :=
  if !_is_multi_line parameters then Except.ok []
  else
    match parameters.children with
    | [open_parenthesis, args_list, _close_parenthesis] =>
      match args_list.children with
      | [] =>
        -- TODO in source: complain about multi-line argument list with nothing in it
        Except.ok []
      | first_element :: rest =>
        match open_parenthesis.lineno with
        | none => Except.error "AttributeError: lineno"
        | some open_line =>
          let elements := first_element :: rest
          let s100 :=
            if some open_line = first_element.get_lineno then
              [_error first_element ErrorCode.S100]
            else []
          let last_element := elements.getLast (List.cons_ne_nil _ _)
          let no_variadic_arguments := elements.all fun element =>
            decide (element.type ≠ STAR ∧ element.type ≠ DOUBLESTAR)
          let s101 :=
            if last_element.type ≠ COMMA ∧ no_variadic_arguments then
              [_error last_element ErrorCode.S101]
            else []
          Except.ok (s100 ++ s101)
    | _ => Except.error "ValueError: unpacking parameters.children"

/-- `_process_atom`, translated statement by statement; same exception
modelling as `_process_parameters` (here the attribute read that can fail
first is `.value` on the first child). -/
def _process_atom (atom : PyNode) : Except String (List Violation) :=
  if atom.children.length < 3 ∨ !_is_multi_line atom then Except.ok []
  else
    match atom.children with
    | [] => Except.ok []  -- unreachable: the guard ensures at least 3 children
    | left :: _ =>
      match left with
      | .node _ _ => Except.error "AttributeError: value"
      | .leaf _ left_value open_line _ =>
        if left_value ≠ "\x7b" ∧ left_value ≠ "[" then Except.ok []
        else
          match atom.children with
          | [_open_parenthesis, maker, _close_parenthesis] =>
            let s100 :=
              if some open_line = maker.get_lineno then
                [_error maker ErrorCode.S100]
              else []
            -- the last child of the contents if there is one; if we are
            -- dealing with a one element list the contents node itself
            let last_maker_element := maker.children.getLast?.getD maker
            let has_comprehension_inside :=
              maker.children.any fun n => type_repr n.type = "comp_for"
            let s101 :=
              if last_maker_element.type ≠ COMMA ∧ ¬has_comprehension_inside then
                [_error last_maker_element ErrorCode.S101]
              else []
            Except.ok (s100 ++ s101)
          | _ => Except.error "ValueError: unpacking atom.children"

/-- `_process_trailer`: three children dispatch on the middle child's rule
tag; any other shape yields nothing. -/
def _process_trailer (trailer : PyNode) : Except String (List Violation) :=
  match trailer.children with
  | [_open_bracket, middle, _close_bracket] =>
    if type_repr middle.type = "atom" then _process_atom middle
    else _process_parameters trailer
  | _ => Except.ok []

mutual

/-- `_process_tree`: run the per-tag check at the node, then recurse into
every child, concatenating all yielded violations in order (Python chains
the node's own generator with one generator per child). -/
def _process_tree (tree : PyNode) : Except String (List Violation) :=
  let nice_type := type_repr tree.type
  let own : Except String (List Violation) :=
    if nice_type = "parameters" then _process_parameters tree
    else if nice_type = "trailer" then _process_trailer tree
    else if nice_type = "atom" then _process_atom tree
    else Except.ok []
  match tree with
  | .leaf t v l c => own
  | .node t cs => do
    let own_violations ← own
    let rest ← _process_forest cs
    Except.ok (own_violations ++ rest)

/-- The recursion of `_process_tree` over a child list, in order. -/
def _process_forest : List PyNode → Except String (List Violation)
  | [] => Except.ok []
  | c :: cs => do
    let v ← _process_tree c
    let vs ← _process_forest cs
    Except.ok (v ++ vs)

end

/-- The per-node dispatch of `_process_tree` (the `if`/`elif` chain on the
node's rule tag), factored out so that theorems about the traversal can
name the violations emitted at a single visited node. -/
def violations_at (tree : PyNode) : Except String (List Violation) :=
  let nice_type := type_repr tree.type
  if nice_type = "parameters" then _process_parameters tree
  else if nice_type = "trailer" then _process_trailer tree
  else if nice_type = "atom" then _process_atom tree
  else Except.ok []

/-- The `parameters` node lib2to3 builds for the syntactically valid
source `def f(\n):\n    pass`: only an opening bracket child (line 1) and
a closing bracket child (line 2), with no argument-sequence child. -/
def empty_multiline_parameters : PyNode :=
  PyNode.node parameters_sym [PyNode.leaf 7 "(" 1 5, PyNode.leaf 8 ")" 2 0]

/-- The contents of the literal `[1,\n  2\n]`: `1 , 2` across two lines. -/
def sample_listmaker : PyNode :=
  PyNode.node 300 [PyNode.leaf 2 "1" 1 4, PyNode.leaf 12 "," 1 5, PyNode.leaf 2 "2" 2 4]

/-- The atom `[1,\n  2\n]`: the opening `[` shares line 1 with the first
element and the last element `2` has no trailing comma. -/
def sample_atom : PyNode :=
  PyNode.node atom_sym [PyNode.leaf 9 "[" 1 2, sample_listmaker, PyNode.leaf 10 "]" 3 0]

/-- A call trailer `( [1,\n  2\n] )` whose sole argument is `sample_atom`. -/
def sample_trailer : PyNode :=
  PyNode.node trailer_sym [PyNode.leaf 7 "(" 1 1, sample_atom, PyNode.leaf 8 ")" 3 1]

/-- An atom `[\n1]`-style contents node on line 2 only. -/
def c6_listmaker : PyNode := PyNode.node 300 [PyNode.leaf 2 "1" 2 4]

/-- A multi-line atom (children on lines 1, 2 and 3) whose first leaf is
on line 1. -/
def c6_atom : PyNode :=
  PyNode.node atom_sym [PyNode.leaf 9 "[" 1 2, c6_listmaker, PyNode.leaf 10 "]" 3 0]

/-- A three-child trailer all of whose direct children have first-leaf
line 1, but whose middle child is the multi-line `c6_atom`. -/
def c6_trailer : PyNode :=
  PyNode.node trailer_sym [PyNode.leaf 7 "(" 1 0, c6_atom, PyNode.leaf 8 ")" 1 9]

/-- The argument sequence `a , b` of a two-line call `f(a,\n  b)`. -/
def sample_args : PyNode :=
  PyNode.node 301 [PyNode.leaf 1 "a" 1 6, PyNode.leaf 12 "," 1 7, PyNode.leaf 1 "b" 2 6]

/-- The parameter list of `f(a,\n  b)`: `a` shares line 1 with `(` and `b`
has no trailing comma. -/
def sample_parameters : PyNode :=
  PyNode.node parameters_sym [PyNode.leaf 7 "(" 1 5, sample_args, PyNode.leaf 8 ")" 2 7]

/-- The contents of the dict comprehension
`{\n    k: v\n    for k, v in items\n}`: a body child followed by a
`comp_for` child. -/
def comp_maker : PyNode :=
  PyNode.node 305 [PyNode.node 304 [PyNode.leaf 1 "k" 2 4, PyNode.leaf 11 ":" 2 5,
    PyNode.leaf 1 "v" 2 7],
    PyNode.node comp_for_sym [PyNode.leaf 1 "for" 3 4, PyNode.leaf 1 "k" 3 8]]

/-- The atom of `{\n    k: v\n    for k, v in items\n}`. -/
def comp_atom : PyNode :=
  PyNode.node atom_sym [PyNode.leaf 26 "\x7b" 1 0, comp_maker, PyNode.leaf 27 "\x7d" 4 0]

/-- The argument sequence `* args , x` of `def f(*args,\n      x):`. -/
def variadic_args : PyNode :=
  PyNode.node 301 [PyNode.leaf 16 "*" 1 6, PyNode.leaf 1 "args" 1 7,
    PyNode.leaf 12 "," 1 11, PyNode.leaf 1 "x" 2 6]

/-- The parameter list of `def f(*args,\n      x):`. -/
def variadic_parameters : PyNode :=
  PyNode.node parameters_sym [PyNode.leaf 7 "(" 1 5, variadic_args, PyNode.leaf 8 ")" 2 7]


/-- Filtering a conditional singleton of code `c` by code `c` keeps it. -/
theorem filter_code_same (b : Prop) [Decidable b] (e : PyNode) (c : ErrorCode) :
    (if b then [_error e c] else []).filter (fun v => v.code = c) =
      if b then [_error e c] else [] := by
  split <;> simp [_error]

/-- Filtering a conditional singleton of code `c` by a different code
drops it. -/
theorem filter_code_other (b : Prop) [Decidable b] (e : PyNode) (c c' : ErrorCode)
    (h : c ≠ c') :
    (if b then [_error e c] else []).filter (fun v => v.code = c') = [] := by
  split <;> simp [_error, h]

/-- C1: for every multi-line construct checked by the scanner (a
`parameters`-shaped node with a non-empty element sequence, or a checked
`{`/`[` atom), an S100 violation is emitted if and only if the opening
bracket's line equals the first line of the first enclosed element, and it
is emitted at (first line of that element, column of that element). -/
theorem S100_fires_iff :
    (∀ (tp tOpen lOpen cOpen : Nat) (vOpen : String)
        (args_list close_p first : PyNode) (rest : List PyNode) (vs : List Violation),
      args_list.children = first :: rest →
      _is_multi_line (PyNode.node tp [PyNode.leaf tOpen vOpen lOpen cOpen, args_list, close_p]) = true →
      _process_parameters (PyNode.node tp [PyNode.leaf tOpen vOpen lOpen cOpen, args_list, close_p])
        = Except.ok vs →
      vs.filter (fun v => v.code = ErrorCode.S100) =
        (if some lOpen = first.get_lineno then
          [⟨first.get_lineno, _get_column first, ErrorCode.S100⟩]
        else []))
    ∧
    (∀ (ta tOpen lOpen cOpen : Nat) (vOpen : String)
        (maker close_p : PyNode) (vs : List Violation),
      (vOpen = "\x7b" ∨ vOpen = "[") →
      _is_multi_line (PyNode.node ta [PyNode.leaf tOpen vOpen lOpen cOpen, maker, close_p]) = true →
      _process_atom (PyNode.node ta [PyNode.leaf tOpen vOpen lOpen cOpen, maker, close_p])
        = Except.ok vs →
      vs.filter (fun v => v.code = ErrorCode.S100) =
        (if some lOpen = maker.get_lineno then
          [⟨maker.get_lineno, _get_column maker, ErrorCode.S100⟩]
        else [])) := by
  constructor
  · intro tp tOpen lOpen cOpen vOpen args_list close_p first rest vs hchild hml hok
    cases args_list with
    | leaf t v l c => exact absurd hchild (by simp [PyNode.children])
    | node t cs =>
      simp only [PyNode.children] at hchild
      subst hchild
      unfold _process_parameters at hok
      rw [hml] at hok
      simp only [PyNode.children, PyNode.lineno, Bool.not_true, Bool.false_eq_true,
        if_false, ite_false] at hok
      injection hok with h
      subst h
      rw [List.filter_append, filter_code_same,
        filter_code_other _ _ _ _ (by simp), List.append_nil]
      rfl
  · intro ta tOpen lOpen cOpen vOpen maker close_p vs hv hml hok
    unfold _process_atom at hok
    rw [hml] at hok
    have hguard : ¬ ((PyNode.node ta [PyNode.leaf tOpen vOpen lOpen cOpen, maker,
        close_p]).children.length < 3 ∨ (!true) = true) := by simp [PyNode.children]
    rw [if_neg hguard] at hok
    simp only [PyNode.children] at hok
    have hvne : ¬ (vOpen ≠ "\x7b" ∧ vOpen ≠ "[") := by
      rcases hv with h | h <;> simp [h]
    rw [if_neg hvne] at hok
    injection hok with h
    subst h
    rw [List.filter_append, filter_code_same,
      filter_code_other _ _ _ _ (by simp), List.append_nil]
    rfl

/-- Witness for C1: the parameter list of `f(a,\n  b)` (S100 fires at `a`)
and the atom `[1,\n  2\n]` (S100 fires at the contents). -/
theorem S100_fires_iff_witness :
    (sample_args.children =
      PyNode.leaf 1 "a" 1 6 :: [PyNode.leaf 12 "," 1 7, PyNode.leaf 1 "b" 2 6] ∧
    _is_multi_line (PyNode.node parameters_sym
      [PyNode.leaf 7 "(" 1 5, sample_args, PyNode.leaf 8 ")" 2 7]) = true ∧
    _process_parameters (PyNode.node parameters_sym
        [PyNode.leaf 7 "(" 1 5, sample_args, PyNode.leaf 8 ")" 2 7]) =
      Except.ok [⟨some 1, some 6, ErrorCode.S100⟩, ⟨some 2, some 6, ErrorCode.S101⟩] ∧
    ([⟨some 1, some 6, ErrorCode.S100⟩, ⟨some 2, some 6, ErrorCode.S101⟩]
        : List Violation).filter (fun v => v.code = ErrorCode.S100) =
      (if some 1 = (PyNode.leaf 1 "a" 1 6 : PyNode).get_lineno then
        [⟨(PyNode.leaf 1 "a" 1 6 : PyNode).get_lineno,
          _get_column (PyNode.leaf 1 "a" 1 6), ErrorCode.S100⟩]
      else []))
    ∧
    (("[" : String) = "\x7b" ∨ ("[" : String) = "[") ∧
    _is_multi_line (PyNode.node atom_sym
      [PyNode.leaf 9 "[" 1 2, sample_listmaker, PyNode.leaf 10 "]" 3 0]) = true ∧
    _process_atom (PyNode.node atom_sym
        [PyNode.leaf 9 "[" 1 2, sample_listmaker, PyNode.leaf 10 "]" 3 0]) =
      Except.ok [⟨some 1, some 4, ErrorCode.S100⟩, ⟨some 2, some 4, ErrorCode.S101⟩] ∧
    ([⟨some 1, some 4, ErrorCode.S100⟩, ⟨some 2, some 4, ErrorCode.S101⟩]
        : List Violation).filter (fun v => v.code = ErrorCode.S100) =
      (if some 1 = sample_listmaker.get_lineno then
        [⟨sample_listmaker.get_lineno, _get_column sample_listmaker, ErrorCode.S100⟩]
      else []) :=
  ⟨⟨rfl, by decide, by decide,
    S100_fires_iff.1 parameters_sym 7 1 5 "(" sample_args (PyNode.leaf 8 ")" 2 7)
      (PyNode.leaf 1 "a" 1 6) [PyNode.leaf 12 "," 1 7, PyNode.leaf 1 "b" 2 6]
      _ rfl (by decide) (by decide)⟩,
   Or.inr rfl, by decide, by decide,
    S100_fires_iff.2 atom_sym 9 1 2 "[" sample_listmaker (PyNode.leaf 10 "]" 3 0)
      _ (Or.inr rfl) (by decide) (by decide)⟩

/-- C2: for every multi-line `parameters`-shaped node with a non-empty
element sequence, an S101 violation is emitted if and only if the last
element is not a comma token and no element of the sequence is a `*` or
`**` marker token; when emitted it sits at (first line of the last
element, column of the last element).  In particular a variadic marker
suppresses S101 regardless of S100. -/
theorem S101_parameters_iff :
    ∀ (tp tOpen lOpen cOpen : Nat) (vOpen : String)
      (args_list close_p first : PyNode) (rest : List PyNode) (vs : List Violation),
      args_list.children = first :: rest →
      _is_multi_line (PyNode.node tp
        [PyNode.leaf tOpen vOpen lOpen cOpen, args_list, close_p]) = true →
      _process_parameters (PyNode.node tp
        [PyNode.leaf tOpen vOpen lOpen cOpen, args_list, close_p]) = Except.ok vs →
      vs.filter (fun v => v.code = ErrorCode.S101) =
        (if ((first :: rest).getLast (List.cons_ne_nil _ _)).type ≠ COMMA ∧
            (∀ e ∈ first :: rest, e.type ≠ STAR ∧ e.type ≠ DOUBLESTAR) then
          [⟨((first :: rest).getLast (List.cons_ne_nil _ _)).get_lineno,
            _get_column ((first :: rest).getLast (List.cons_ne_nil _ _)), ErrorCode.S101⟩]
        else []) := by
  intro tp tOpen lOpen cOpen vOpen args_list close_p first rest vs hchild hml hok
  cases args_list with
  | leaf t v l c => exact absurd hchild (by simp [PyNode.children])
  | node t cs =>
    simp only [PyNode.children] at hchild
    subst hchild
    unfold _process_parameters at hok
    rw [hml] at hok
    simp only [PyNode.children, PyNode.lineno, Bool.not_true, Bool.false_eq_true,
      if_false, ite_false] at hok
    injection hok with h
    subst h
    rw [List.filter_append, filter_code_same,
      filter_code_other _ _ _ _ (by simp), List.nil_append]
    refine if_congr ?_ rfl rfl
    constructor
    · rintro ⟨h1, h2⟩
      refine ⟨h1, ?_⟩
      intro e he
      have := List.all_eq_true.mp h2 e he
      exact of_decide_eq_true this
    · rintro ⟨h1, h2⟩
      refine ⟨h1, List.all_eq_true.mpr ?_⟩
      intro e he
      exact decide_eq_true (h2 e he)

/-- Witness for C2: `def f(*args,\n      x):` (S101 suppressed by the
variadic marker even though S100 fires) and `f(a,\n  b)` (S101 fires at
`b`). -/
theorem S101_parameters_iff_witness :
    (variadic_args.children = PyNode.leaf 16 "*" 1 6 ::
      [PyNode.leaf 1 "args" 1 7, PyNode.leaf 12 "," 1 11, PyNode.leaf 1 "x" 2 6] ∧
    _is_multi_line (PyNode.node parameters_sym
      [PyNode.leaf 7 "(" 1 5, variadic_args, PyNode.leaf 8 ")" 2 7]) = true ∧
    _process_parameters (PyNode.node parameters_sym
        [PyNode.leaf 7 "(" 1 5, variadic_args, PyNode.leaf 8 ")" 2 7]) =
      Except.ok [⟨some 1, some 6, ErrorCode.S100⟩] ∧
    ([⟨some 1, some 6, ErrorCode.S100⟩] : List Violation).filter
        (fun v => v.code = ErrorCode.S101) =
      (if ((PyNode.leaf 16 "*" 1 6 :: [PyNode.leaf 1 "args" 1 7, PyNode.leaf 12 "," 1 11,
            PyNode.leaf 1 "x" 2 6]).getLast (List.cons_ne_nil _ _)).type ≠ COMMA ∧
          (∀ e ∈ PyNode.leaf 16 "*" 1 6 :: [PyNode.leaf 1 "args" 1 7,
            PyNode.leaf 12 "," 1 11, PyNode.leaf 1 "x" 2 6],
            e.type ≠ STAR ∧ e.type ≠ DOUBLESTAR) then
        [⟨((PyNode.leaf 16 "*" 1 6 :: [PyNode.leaf 1 "args" 1 7, PyNode.leaf 12 "," 1 11,
            PyNode.leaf 1 "x" 2 6]).getLast (List.cons_ne_nil _ _)).get_lineno,
          _get_column ((PyNode.leaf 16 "*" 1 6 :: [PyNode.leaf 1 "args" 1 7,
            PyNode.leaf 12 "," 1 11, PyNode.leaf 1 "x" 2 6]).getLast (List.cons_ne_nil _ _)),
          ErrorCode.S101⟩]
      else []))
    ∧
    (sample_args.children = PyNode.leaf 1 "a" 1 6 ::
      [PyNode.leaf 12 "," 1 7, PyNode.leaf 1 "b" 2 6] ∧
    _is_multi_line (PyNode.node parameters_sym
      [PyNode.leaf 7 "(" 1 5, sample_args, PyNode.leaf 8 ")" 2 7]) = true ∧
    _process_parameters (PyNode.node parameters_sym
        [PyNode.leaf 7 "(" 1 5, sample_args, PyNode.leaf 8 ")" 2 7]) =
      Except.ok [⟨some 1, some 6, ErrorCode.S100⟩, ⟨some 2, some 6, ErrorCode.S101⟩] ∧
    ([⟨some 1, some 6, ErrorCode.S100⟩, ⟨some 2, some 6, ErrorCode.S101⟩]
        : List Violation).filter (fun v => v.code = ErrorCode.S101) =
      (if ((PyNode.leaf 1 "a" 1 6 :: [PyNode.leaf 12 "," 1 7,
            PyNode.leaf 1 "b" 2 6]).getLast (List.cons_ne_nil _ _)).type ≠ COMMA ∧
          (∀ e ∈ PyNode.leaf 1 "a" 1 6 :: [PyNode.leaf 12 "," 1 7, PyNode.leaf 1 "b" 2 6],
            e.type ≠ STAR ∧ e.type ≠ DOUBLESTAR) then
        [⟨((PyNode.leaf 1 "a" 1 6 :: [PyNode.leaf 12 "," 1 7,
            PyNode.leaf 1 "b" 2 6]).getLast (List.cons_ne_nil _ _)).get_lineno,
          _get_column ((PyNode.leaf 1 "a" 1 6 :: [PyNode.leaf 12 "," 1 7,
            PyNode.leaf 1 "b" 2 6]).getLast (List.cons_ne_nil _ _)), ErrorCode.S101⟩]
      else [])) :=
  ⟨⟨rfl, by decide, by decide,
    S101_parameters_iff parameters_sym 7 1 5 "(" variadic_args (PyNode.leaf 8 ")" 2 7)
      (PyNode.leaf 16 "*" 1 6)
      [PyNode.leaf 1 "args" 1 7, PyNode.leaf 12 "," 1 11, PyNode.leaf 1 "x" 2 6]
      _ rfl (by decide) (by decide)⟩,
   rfl, by decide, by decide,
    S101_parameters_iff parameters_sym 7 1 5 "(" sample_args (PyNode.leaf 8 ")" 2 7)
      (PyNode.leaf 1 "a" 1 6) [PyNode.leaf 12 "," 1 7, PyNode.leaf 1 "b" 2 6]
      _ rfl (by decide) (by decide)⟩

/-- C3: for every checked atom (three children, multi-line, first child's
text `{` or `[`): if any direct child of the contents node carries the
rule tag `comp_for`, no S101 is emitted from that node even when the last
logical element is not a comma, and the S100 check is unaffected;
otherwise S101 is emitted exactly when the last logical element (the last
child of the contents, or the contents itself when it has no children) is
not a comma token, at its (first line, column). -/
theorem S101_atom_comprehension :
    ∀ (ta tOpen lOpen cOpen : Nat) (vOpen : String)
      (maker close_p : PyNode) (vs : List Violation),
      (vOpen = "\x7b" ∨ vOpen = "[") →
      _is_multi_line (PyNode.node ta
        [PyNode.leaf tOpen vOpen lOpen cOpen, maker, close_p]) = true →
      _process_atom (PyNode.node ta
        [PyNode.leaf tOpen vOpen lOpen cOpen, maker, close_p]) = Except.ok vs →
      vs.filter (fun v => v.code = ErrorCode.S101) =
        (if (maker.children.getLast?.getD maker).type ≠ COMMA ∧
            ¬ (∃ n ∈ maker.children, type_repr n.type = "comp_for") then
          [⟨(maker.children.getLast?.getD maker).get_lineno,
            _get_column (maker.children.getLast?.getD maker), ErrorCode.S101⟩]
        else [])
      ∧ vs.filter (fun v => v.code = ErrorCode.S100) =
        (if some lOpen = maker.get_lineno then
          [⟨maker.get_lineno, _get_column maker, ErrorCode.S100⟩]
        else []) := by
  intro ta tOpen lOpen cOpen vOpen maker close_p vs hv hml hok
  unfold _process_atom at hok
  rw [hml] at hok
  have hguard : ¬ ((PyNode.node ta [PyNode.leaf tOpen vOpen lOpen cOpen, maker,
      close_p]).children.length < 3 ∨ (!true) = true) := by simp [PyNode.children]
  rw [if_neg hguard] at hok
  simp only [PyNode.children] at hok
  have hvne : ¬ (vOpen ≠ "\x7b" ∧ vOpen ≠ "[") := by
    rcases hv with h | h <;> simp [h]
  rw [if_neg hvne] at hok
  injection hok with h
  subst h
  constructor
  · rw [List.filter_append, filter_code_same,
      filter_code_other _ _ _ _ (by simp), List.nil_append]
    refine if_congr ?_ rfl rfl
    constructor
    · rintro ⟨h1, h2⟩
      refine ⟨h1, ?_⟩
      intro hex
      apply h2
      rcases hex with ⟨n, hn, htag⟩
      exact List.any_eq_true.mpr ⟨n, hn, decide_eq_true htag⟩
    · rintro ⟨h1, h2⟩
      refine ⟨h1, ?_⟩
      intro hany
      apply h2
      rcases List.any_eq_true.mp hany with ⟨n, hn, htag⟩
      exact ⟨n, hn, of_decide_eq_true htag⟩
  · rw [List.filter_append, filter_code_same,
      filter_code_other _ _ _ _ (by simp), List.append_nil]
    rfl

/-- Witness for C3: the atom `[1,\n  2\n]` (no comprehension, S101 fires
at `2`, S100 fires at the contents) and the dict comprehension
`{\n    k: v\n    for k, v in items\n}` (S101 suppressed). -/
theorem S101_atom_comprehension_witness :
    (((("[" : String) = "\x7b" ∨ ("[" : String) = "[") ∧
    _is_multi_line (PyNode.node atom_sym
      [PyNode.leaf 9 "[" 1 2, sample_listmaker, PyNode.leaf 10 "]" 3 0]) = true ∧
    _process_atom (PyNode.node atom_sym
        [PyNode.leaf 9 "[" 1 2, sample_listmaker, PyNode.leaf 10 "]" 3 0]) =
      Except.ok [⟨some 1, some 4, ErrorCode.S100⟩, ⟨some 2, some 4, ErrorCode.S101⟩]) ∧
    ([⟨some 1, some 4, ErrorCode.S100⟩, ⟨some 2, some 4, ErrorCode.S101⟩]
        : List Violation).filter (fun v => v.code = ErrorCode.S101) =
      (if (sample_listmaker.children.getLast?.getD sample_listmaker).type ≠ COMMA ∧
          ¬ (∃ n ∈ sample_listmaker.children, type_repr n.type = "comp_for") then
        [⟨(sample_listmaker.children.getLast?.getD sample_listmaker).get_lineno,
          _get_column (sample_listmaker.children.getLast?.getD sample_listmaker),
          ErrorCode.S101⟩]
      else []))
    ∧
    ((("\x7b" : String) = "\x7b" ∨ ("\x7b" : String) = "[") ∧
    _is_multi_line (PyNode.node atom_sym
      [PyNode.leaf 26 "\x7b" 1 0, comp_maker, PyNode.leaf 27 "\x7d" 4 0]) = true ∧
    _process_atom (PyNode.node atom_sym
        [PyNode.leaf 26 "\x7b" 1 0, comp_maker, PyNode.leaf 27 "\x7d" 4 0]) =
      Except.ok [] ∧
    ([] : List Violation).filter (fun v => v.code = ErrorCode.S101) =
      (if (comp_maker.children.getLast?.getD comp_maker).type ≠ COMMA ∧
          ¬ (∃ n ∈ comp_maker.children, type_repr n.type = "comp_for") then
        [⟨(comp_maker.children.getLast?.getD comp_maker).get_lineno,
          _get_column (comp_maker.children.getLast?.getD comp_maker), ErrorCode.S101⟩]
      else [])) :=
  ⟨⟨⟨Or.inr rfl, by decide, by decide⟩,
    (S101_atom_comprehension atom_sym 9 1 2 "[" sample_listmaker (PyNode.leaf 10 "]" 3 0)
      _ (Or.inr rfl) (by decide) (by decide)).1⟩,
   ⟨Or.inl rfl, by decide, by decide,
    (S101_atom_comprehension atom_sym 26 1 0 "\x7b" comp_maker (PyNode.leaf 27 "\x7d" 4 0)
      _ (Or.inl rfl) (by decide) (by decide)).1⟩⟩

/-- C4 evidence: the scan is not total.  On the syntactically valid
source `def f(\n):\n    pass` the `parameters` node has only an opening
and a closing bracket child on different lines; the multi-line guard
passes and the three-way unpacking of its children then raises a
`ValueError` (modelled as `Except.error`) instead of returning a
violation sequence. -/
theorem scan_raises_on_empty_multiline_parameters :
    _is_multi_line empty_multiline_parameters = true ∧
    _process_tree empty_multiline_parameters =
      Except.error "ValueError: unpacking parameters.children" :=
  ⟨by decide, by decide⟩

/-- C5: a checked construct that encloses no elements emits zero
violations: a `parameters`-shaped node whose middle child has no children
yields nothing whatever its line spread, and an atom with fewer than
three children (the shape of an empty multi-line `()`/`[]`/`{}` literal)
yields nothing. -/
theorem empty_construct_no_violations :
    (∀ (tp : Nat) (open_p args_list close_p : PyNode),
      args_list.children = [] →
      _process_parameters (PyNode.node tp [open_p, args_list, close_p]) = Except.ok [])
    ∧ (∀ atom : PyNode, atom.children.length < 3 →
      _process_atom atom = Except.ok []) := by
  constructor
  · intro tp open_p args_list close_p hchild
    cases args_list with
    | leaf t v l c =>
      unfold _process_parameters
      split
      · rfl
      · rfl
    | node t cs =>
      simp only [PyNode.children] at hchild
      subst hchild
      unfold _process_parameters
      split
      · rfl
      · rfl
  · intro atom hlen
    unfold _process_atom
    rw [if_pos (Or.inl hlen)]

/-- Witness for C5: an empty argument-sequence node inside a two-line
parameter list, and the two-child atom of an empty two-line `[]`. -/
theorem empty_construct_no_violations_witness :
    ((PyNode.node 301 ([] : List PyNode)).children = [] ∧
     _process_parameters (PyNode.node parameters_sym
       [PyNode.leaf 7 "(" 1 0, PyNode.node 301 [], PyNode.leaf 8 ")" 2 0]) = Except.ok []) ∧
    ((PyNode.node atom_sym [PyNode.leaf 9 "[" 1 0,
        PyNode.leaf 10 "]" 2 0]).children.length < 3 ∧
     _process_atom (PyNode.node atom_sym [PyNode.leaf 9 "[" 1 0,
       PyNode.leaf 10 "]" 2 0]) = Except.ok []) :=
  ⟨⟨rfl, empty_construct_no_violations.1 parameters_sym _ _ _ rfl⟩,
   ⟨by decide, empty_construct_no_violations.2 _ (by decide)⟩⟩

/-- C6 counterexample: `c6_trailer` is a three-child `trailer` node all
of whose direct children have first-leaf line 1 (one distinct line
number), yet the scanner emits an S101 violation at it: the trailer
delegates to the atom check on its middle child, which tests the middle
child's own children for the multi-line condition instead of the
trailer's. -/
theorem single_line_node_counterexample :
    type_repr c6_trailer.type = "trailer" ∧
    c6_trailer.children.length = 3 ∧
    (c6_trailer.children.map PyNode.get_lineno).dedup.length ≤ 1 ∧
    _process_trailer c6_trailer = Except.ok [⟨some 2, some 4, ErrorCode.S101⟩] :=
  ⟨by decide, by decide, by decide, by decide⟩

/-- C6 amended: a `parameters`-shaped check on a node whose direct
children share one first-leaf line number emits nothing, an atom check on
such a node emits nothing, and a three-child trailer whose middle child
is not tagged `atom` emits nothing when its own children share one line;
only the trailer-to-atom delegation tests the middle child's children
instead. -/
theorem single_line_no_violations :
    (∀ p : PyNode, _is_multi_line p = false → _process_parameters p = Except.ok [])
    ∧ (∀ a : PyNode, _is_multi_line a = false → _process_atom a = Except.ok [])
    ∧ (∀ (tt : Nat) (o m c : PyNode),
        _is_multi_line (PyNode.node tt [o, m, c]) = false →
        type_repr m.type ≠ "atom" →
        _process_trailer (PyNode.node tt [o, m, c]) = Except.ok []) := by
  refine ⟨?_, ?_, ?_⟩
  · intro p hml
    unfold _process_parameters
    rw [hml]
    rfl
  · intro a hml
    unfold _process_atom
    rw [hml]
    have hc : (a.children.length < 3 ∨ (!false) = true) := Or.inr rfl
    rw [if_pos hc]
  · intro tt o m c hml htag
    unfold _process_trailer
    simp only [PyNode.children]
    rw [if_neg htag]
    unfold _process_parameters
    rw [hml]
    rfl

/-- Witness for C6 amended: a single-line `f(a)` parameter list, a
single-line `[1]` atom, and a single-line subscript trailer whose middle
child is a plain name. -/
theorem single_line_no_violations_witness :
    (_is_multi_line (PyNode.node parameters_sym [PyNode.leaf 7 "(" 1 1,
      PyNode.leaf 1 "a" 1 2, PyNode.leaf 8 ")" 1 3]) = false ∧
     _process_parameters (PyNode.node parameters_sym [PyNode.leaf 7 "(" 1 1,
       PyNode.leaf 1 "a" 1 2, PyNode.leaf 8 ")" 1 3]) = Except.ok []) ∧
    (_is_multi_line (PyNode.node atom_sym [PyNode.leaf 9 "[" 1 0,
      PyNode.leaf 2 "1" 1 1, PyNode.leaf 10 "]" 1 2]) = false ∧
     _process_atom (PyNode.node atom_sym [PyNode.leaf 9 "[" 1 0,
       PyNode.leaf 2 "1" 1 1, PyNode.leaf 10 "]" 1 2]) = Except.ok []) ∧
    (_is_multi_line (PyNode.node trailer_sym [PyNode.leaf 9 "[" 1 1,
      PyNode.leaf 1 "i" 1 2, PyNode.leaf 10 "]" 1 3]) = false ∧
     type_repr (PyNode.leaf 1 "i" 1 2 : PyNode).type ≠ "atom" ∧
     _process_trailer (PyNode.node trailer_sym [PyNode.leaf 9 "[" 1 1,
       PyNode.leaf 1 "i" 1 2, PyNode.leaf 10 "]" 1 3]) = Except.ok []) :=
  ⟨⟨by decide, single_line_no_violations.1 _ (by decide)⟩,
   ⟨by decide, single_line_no_violations.2.1 _ (by decide)⟩,
   ⟨by decide, by decide,
    single_line_no_violations.2.2 trailer_sym (PyNode.leaf 9 "[" 1 1)
      (PyNode.leaf 1 "i" 1 2) (PyNode.leaf 10 "]" 1 3) (by decide) (by decide)⟩⟩

/-- C7: a three-child trailer delegates to the atom check on its middle
child when that child is tagged `atom`, and otherwise to the
parameter-list check on the whole trailer; a trailer with any other
number of children yields no violations of its own. -/
theorem trailer_dispatch :
    (∀ (t o m c : PyNode), t.children = [o, m, c] →
      _process_trailer t =
        (if type_repr m.type = "atom" then _process_atom m
         else _process_parameters t))
    ∧ (∀ t : PyNode, t.children.length ≠ 3 → _process_trailer t = Except.ok []) := by
  constructor
  · intro t o m c hchild
    unfold _process_trailer
    rw [hchild]
  · intro t hlen
    unfold _process_trailer
    cases hchild : t.children with
    | nil => rfl
    | cons a l =>
      cases l with
      | nil => rfl
      | cons b l' =>
        cases l' with
        | nil => rfl
        | cons d l'' =>
          cases l'' with
          | nil => exact absurd (by rw [hchild]; rfl) hlen
          | cons e l''' => rfl

/-- Witness for C7: the call trailer around `[1,\n  2\n]` (atom middle
child), a three-child call trailer with a plain-name middle child, and a
two-child attribute trailer. -/
theorem trailer_dispatch_witness :
    (sample_trailer.children = [PyNode.leaf 7 "(" 1 1, sample_atom, PyNode.leaf 8 ")" 3 1] ∧
     _process_trailer sample_trailer =
       (if type_repr sample_atom.type = "atom" then _process_atom sample_atom
        else _process_parameters sample_trailer)) ∧
    ((PyNode.node trailer_sym [PyNode.leaf 7 "(" 1 1, PyNode.leaf 1 "x" 1 2,
        PyNode.leaf 8 ")" 1 3]).children =
      [PyNode.leaf 7 "(" 1 1, PyNode.leaf 1 "x" 1 2, PyNode.leaf 8 ")" 1 3] ∧
     _process_trailer (PyNode.node trailer_sym [PyNode.leaf 7 "(" 1 1,
       PyNode.leaf 1 "x" 1 2, PyNode.leaf 8 ")" 1 3]) =
       (if type_repr (PyNode.leaf 1 "x" 1 2 : PyNode).type = "atom" then
          _process_atom (PyNode.leaf 1 "x" 1 2)
        else _process_parameters (PyNode.node trailer_sym [PyNode.leaf 7 "(" 1 1,
          PyNode.leaf 1 "x" 1 2, PyNode.leaf 8 ")" 1 3]))) ∧
    ((PyNode.node trailer_sym [PyNode.leaf 23 "." 1 1,
        PyNode.leaf 1 "attr" 1 2]).children.length ≠ 3 ∧
     _process_trailer (PyNode.node trailer_sym [PyNode.leaf 23 "." 1 1,
       PyNode.leaf 1 "attr" 1 2]) = Except.ok []) :=
  ⟨⟨rfl, trailer_dispatch.1 sample_trailer _ _ _ rfl⟩,
   ⟨rfl, trailer_dispatch.1 _ _ _ _ rfl⟩,
   ⟨by decide, trailer_dispatch.2 _ (by decide)⟩⟩

/-- Scanning a child list is scanning each child in order and
concatenating the results. -/
theorem _process_forest_eq_mapM (cs : List PyNode) :
    _process_forest cs =
      (cs.mapM _process_tree).bind fun parts => Except.ok parts.flatten := by
  induction cs with
  | nil => rfl
  | cons c cs ih =>
    show (_process_tree c).bind
        (fun v => (_process_forest cs).bind fun vs => Except.ok (v ++ vs)) = _
    rw [List.mapM_cons, ih]
    cases _process_tree c with
    | error e => rfl
    | ok v =>
      cases cs.mapM _process_tree with
      | error e => rfl
      | ok parts => rfl

/-- C8: the scan of any tree is the per-node violations of the root
followed by the concatenation, in source order, of the scans of all its
children — i.e. the concatenation in pre-order depth-first traversal
order of the violations emitted at each visited node, with recursion
continuing into every child regardless of whether a check fired. -/
theorem scan_is_preorder_concat (tree : PyNode) :
    _process_tree tree =
      (do
        let own ← violations_at tree
        let parts ← tree.children.mapM _process_tree
        Except.ok (own ++ parts.flatten)) := by
  cases tree with
  | leaf t v l c =>
    show violations_at (PyNode.leaf t v l c) = _
    cases h : violations_at (PyNode.leaf t v l c) with
    | error e => rfl
    | ok own =>
      show Except.ok own = Except.ok (own ++ ([] : List (List Violation)).flatten)
      simp
  | node t cs =>
    show (violations_at (PyNode.node t cs)).bind
        (fun own => (_process_forest cs).bind fun rest => Except.ok (own ++ rest)) = _
    rw [_process_forest_eq_mapM]
    simp only [PyNode.children]
    cases violations_at (PyNode.node t cs) with
    | error e => rfl
    | ok own =>
      cases cs.mapM _process_tree with
      | error e => rfl
      | ok parts => rfl

/-- C9: the reported column of an element is its stored column for a
leaf, the column resolved on the first child for a composite with
children, and absent (`none`, not an error) for a childless composite;
`_error` passes the absent value through as a missing column. -/
theorem column_resolution :
    (∀ (t : Nat) (v : String) (l c : Nat), _get_column (PyNode.leaf t v l c) = some c)
    ∧ (∀ (t : Nat) (c0 : PyNode) (cs : List PyNode),
        _get_column (PyNode.node t (c0 :: cs)) = _get_column c0)
    ∧ (∀ t : Nat, _get_column (PyNode.node t []) = none)
    ∧ (∀ (t : Nat) (code : ErrorCode),
        _error (PyNode.node t []) code = ⟨none, none, code⟩) :=
  ⟨fun _ _ _ _ => rfl, fun _ _ _ => rfl, fun _ => rfl, fun _ _ => rfl⟩

/-- C10: on a three-child trailer whose middle child is a flagged atom,
the scan reports each of the atom's violations twice: once through the
trailer's delegation to the atom check, and once again when the pre-order
traversal visits the atom child itself. -/
theorem trailer_atom_double_report :
    _process_trailer sample_trailer = _process_atom sample_atom ∧
    _process_atom sample_atom =
      Except.ok [⟨some 1, some 4, ErrorCode.S100⟩, ⟨some 2, some 4, ErrorCode.S101⟩] ∧
    _process_tree sample_trailer =
      Except.ok [⟨some 1, some 4, ErrorCode.S100⟩, ⟨some 2, some 4, ErrorCode.S101⟩,
                 ⟨some 1, some 4, ErrorCode.S100⟩, ⟨some 2, some 4, ErrorCode.S101⟩] :=
  ⟨by decide, by decide, by decide⟩

end FlakeStrict
